import Mathlib

/-!
Shallow embedding of the Inventory_Management_API Django application
(`inventory/models.py`, `inventory/views.py`, `inventory/serializers.py`)
and proofs of the specification claims about it.

Records are embedded as Lean structures, the database as lists of records,
and each HTTP handler as a pure function from the database, the
authenticated caller and the request data to the new database and a
response value.  `PositiveIntegerField` becomes `Nat`; `IntegerField`
becomes `Int`; timestamps are abstract `Nat` clock values supplied by
the caller (`auto_now` / `auto_now_add`).
-/

namespace Inventory

/-- Embeds `CustomUser` (models.py): the fields the inventory logic reads.
`is_staff` comes from `AbstractUser`. -/
structure User where
  id : Nat
  username : String
  email : String
  first_name : String
  last_name : String
  password_hash : String
  is_staff : Bool
  deriving Repr, DecidableEq

/-- Embeds `InventoryItem` (models.py).  `quantity` is a
`PositiveIntegerField(default=0)`, hence `Nat`; `price` is a
`DecimalField(max_digits=10, decimal_places=2)`, embedded as the integer
number of hundredths. -/
structure InventoryItem where
  id : Nat
  user : Nat
  name : String
  description : String
  quantity : Nat
  price : Int
  category : String
  date_added : Nat
  last_updated : Nat
  deriving Repr, DecidableEq

/-- Embeds `InventoryChangeLog` (models.py): `quantity_before` and
`quantity_after` are `PositiveIntegerField`s, `delta` is a signed
`IntegerField`, `performed_by` is nullable (`SET_NULL`). -/
structure InventoryChangeLog where
  id : Nat
  item : Nat
  performed_by : Option Nat
  quantity_before : Nat
  quantity_after : Nat
  delta : Int
  reason : String
  created_at : Nat
  deriving Repr, DecidableEq

/-- The relational store.  `logs` is kept newest-first, matching the model
`Meta.ordering = ['-created_at']` used by the history endpoint. -/
structure DB where
  users : List User
  items : List InventoryItem
  logs : List InventoryChangeLog
  deriving Repr, DecidableEq

/-- The error taxonomy the handlers surface (DRF status codes):
`badRequest` is `ValidationError`/HTTP 400, `notFound` HTTP 404,
`forbidden` HTTP 403. -/
inductive HttpError where
  | badRequest
  | notFound
  | forbidden
  deriving Repr, DecidableEq

/-- A JSON value as it reaches `request.data.get(...)`: absent (`None`),
a string, or a number already of integer type. -/
inductive PyVal where
  | none
  | str (s : String)
  | int (n : Int)
  deriving Repr, DecidableEq

/-- Value of a run of decimal digit characters. -/
def digitsToNat (cs : List Char) : Nat :=
  cs.foldl (fun a c => a * 10 + (c.toNat - 48)) 0

/-- Python `int(s)` on a string: surrounding ASCII whitespace is ignored,
then an optional sign followed by a nonempty run of decimal digits;
anything else raises `ValueError` (`Option.none` here).  Underscore digit
separators are not modelled; no claim depends on them. -/
def parseIntString (s : String) : Option Int :=
  let core := (((s.toList.dropWhile Char.isWhitespace).reverse.dropWhile
      Char.isWhitespace).reverse)
  match core with
  | [] => Option.none
  | c :: rest =>
    let signed : Int × List Char :=
      if c = '-' then (-1, rest) else if c = '+' then (1, rest) else (1, c :: rest)
    if signed.2 ≠ [] ∧ signed.2.all Char.isDigit then
      some (signed.1 * (digitsToNat signed.2 : Int))
    else Option.none

/-- Python `int(x)` as applied to `request.data.get('delta')` in
`adjust_quantity`: `None` raises `TypeError`, a malformed string raises
`ValueError` — both caught by the handler — and an integer value passes
through. -/
def pyInt : PyVal → Option Int
  | PyVal.none => Option.none
  | PyVal.str s => parseIntString s
  | PyVal.int n => some n

/-- Embeds `InventoryItemViewSet.get_queryset` (views.py): start from all
items, restrict to `user=self.request.user` unless the caller is staff,
then, when a `low_stock` query parameter is present and `int()` parses it,
keep only items with `quantity < threshold`; a malformed threshold is
silently ignored. -/
def get_queryset (db : DB) (requester : User) (low_stock : Option String) :
    List InventoryItem :=
  let qs := db.items
  let qs := if requester.is_staff then qs
            else qs.filter (fun i => i.user == requester.id)
  match low_stock with
  | Option.none => qs
  | some s =>
    match parseIntString s with
    | some threshold => qs.filter (fun i => (i.quantity : Int) < threshold)
    | Option.none => qs

/-- Modelled from the spec: `inventory/permissions.py` (`IsOwner`) is
imported by views.py but is not among the provided sources.  Per the spec,
"a non-staff identity may only read/write InventoryItems it owns" and
"Staff identities see and may modify all items". -/
def isOwnerPermits (requester : User) (i : InventoryItem) : Bool :=
  requester.is_staff || i.user == requester.id

/-- DRF `GenericAPIView.get_object` over the scoped queryset of a detail
route (no query parameters): look the `pk` up in `get_queryset`; a miss is
HTTP 404 `NotFound`, and the object-level `IsOwner` check (modelled above)
may refuse with 403. -/
def get_object (db : DB) (requester : User) (pk : Nat) :
    Except HttpError InventoryItem :=
  match (get_queryset db requester Option.none).find? (fun i => i.id == pk) with
  | Option.none => Except.error HttpError.notFound
  | some i =>
    if isOwnerPermits requester i then Except.ok i
    else Except.error HttpError.forbidden

/-- `item.save()` / `serializer.save()` on an existing row: replace the row
with the matching primary key, leave every other row untouched. -/
def saveItem (items : List InventoryItem) (it : InventoryItem) :
    List InventoryItem :=
  items.map (fun j => if j.id == it.id then it else j)

/-- Body of a POST to `/inventory/{id}/adjust_quantity/`:
`request.data.get('delta')` and `request.data.get('reason', '')`. -/
structure AdjustRequest where
  delta : PyVal
  reason : String
  deriving Repr, DecidableEq

/-- Response of `adjust_quantity`: either the 200 payload
`{'id': item.id, 'quantity': item.quantity}` or an error status. -/
inductive AdjustResp where
  | ok (id : Nat) (quantity : Nat)
  | err (e : HttpError)
  deriving Repr, DecidableEq

/-- Embeds `InventoryItemViewSet.adjust_quantity` (views.py): resolve the
item via `get_object`, parse `delta` with `int()` (`TypeError`/`ValueError`
become a 400 response and leave the store untouched), compute
`after = max(0, before + delta)`, save only `quantity` and `last_updated`,
and unconditionally create one `InventoryChangeLog` row with
`delta = after - before`.  The pair returned is (new store, response). -/
def adjust_quantity (db : DB) (requester : User) (pk : Nat)
    (req : AdjustRequest) (now : Nat) : DB × AdjustResp :=
  match get_object db requester pk with
  | Except.error e => (db, AdjustResp.err e)
  | Except.ok item =>
    match pyInt req.delta with
    | Option.none => (db, AdjustResp.err HttpError.badRequest)
    | some delta =>
      let before := item.quantity
      let after : Nat := (max 0 ((before : Int) + delta)).toNat
      let item2 := { item with quantity := after, last_updated := now }
      let log : InventoryChangeLog :=
        { id := db.logs.length
          item := item.id
          performed_by := some requester.id
          quantity_before := before
          quantity_after := after
          delta := (after : Int) - (before : Int)
          reason := req.reason
          created_at := now }
      ({ db with items := saveItem db.items item2, logs := log :: db.logs },
       AdjustResp.ok item.id after)

/-- Validated body of a PATCH/PUT on `/inventory/{id}/`: each writable
serializer field is optionally supplied (`user`, `date_added`,
`last_updated` are read-only and therefore absent), plus the request's
`reason` used by `perform_update` when it logs. -/
structure UpdateRequest where
  name : Option String
  description : Option String
  quantity : Option Nat
  price : Option Int
  category : Option String
  reason : String
  deriving Repr, DecidableEq

/-- Response of the update handler. -/
inductive UpdateResp where
  | ok (item : InventoryItem)
  | err (e : HttpError)
  deriving Repr, DecidableEq

/-- `serializer.save()` on an update: write the supplied fields on the
instance; `auto_now` refreshes `last_updated`. -/
def applyUpdate (item : InventoryItem) (req : UpdateRequest) (now : Nat) :
    InventoryItem :=
  { item with
    name := req.name.getD item.name
    description := req.description.getD item.description
    quantity := req.quantity.getD item.quantity
    price := req.price.getD item.price
    category := req.category.getD item.category
    last_updated := now }

/-- `InventoryItemSerializer.validate_price` (serializers.py): a supplied
price must be strictly positive.  `validate_quantity` (non-negativity) is
enforced by the `Nat` type of `quantity`. -/
def updateValid (req : UpdateRequest) : Bool :=
  match req.price with
  | Option.none => true
  | some p => 0 < p

/-- Embeds DRF `update` plus `InventoryItemViewSet.perform_update`
(views.py): resolve the item, validate, save the new field values, and
create exactly one `InventoryChangeLog` row if and only if the quantity
differs between the pre- and post-save states. -/
def update_view (db : DB) (requester : User) (pk : Nat)
    (req : UpdateRequest) (now : Nat) : DB × UpdateResp :=
  match get_object db requester pk with
  | Except.error e => (db, UpdateResp.err e)
  | Except.ok instanc =>
    if updateValid req then
      let before := instanc.quantity
      let item := applyUpdate instanc req now
      let after := item.quantity
      let db1 := { db with items := saveItem db.items item }
      if before ≠ after then
        let log : InventoryChangeLog :=
          { id := db.logs.length
            item := item.id
            performed_by := some requester.id
            quantity_before := before
            quantity_after := after
            delta := (after : Int) - (before : Int)
            reason := req.reason
            created_at := now }
        ({ db1 with logs := log :: db.logs }, UpdateResp.ok item)
      else (db1, UpdateResp.ok item)
    else (db, UpdateResp.err HttpError.badRequest)

/-- Validated body of a POST to `/inventory/`.  The serializer declares
`user` read-only, so a client-supplied `user` value never enters
`validated_data`; it is carried here only to state that it is ignored. -/
structure CreateRequest where
  user : Option Nat
  name : String
  description : String
  quantity : Nat
  price : Int
  category : String
  deriving Repr, DecidableEq

/-- Response of the create handler. -/
inductive CreateResp where
  | ok (item : InventoryItem)
  | err (e : HttpError)
  deriving Repr, DecidableEq

/-- Embeds DRF `create` plus `InventoryItemViewSet.perform_create`
(views.py): validate, then `serializer.save(user=self.request.user)` —
the stored row's owner is the authenticated caller, and the read-only
`user` field of the request body is dropped.  `newId` stands for the
primary key the database assigns. -/
def create_view (db : DB) (requester : User) (req : CreateRequest)
    (newId now : Nat) : DB × CreateResp :=
  if 0 < req.price then
    let item : InventoryItem :=
      { id := newId
        user := requester.id
        name := req.name
        description := req.description
        quantity := req.quantity
        price := req.price
        category := req.category
        date_added := now
        last_updated := now }
    ({ db with items := db.items ++ [item] }, CreateResp.ok item)
  else (db, CreateResp.err HttpError.badRequest)

/-- Embeds DRF `destroy`: resolve the item, delete its row, and cascade
the delete to its change-log rows (`on_delete=CASCADE`). -/
def destroy_view (db : DB) (requester : User) (pk : Nat) :
    DB × Option HttpError :=
  match get_object db requester pk with
  | Except.error e => (db, some e)
  | Except.ok it =>
    ({ db with
        items := db.items.filter (fun j => ¬ j.id == it.id)
        logs := db.logs.filter (fun l => ¬ l.item == it.id) },
     Option.none)

/-- Embeds `InventoryItemViewSet.history` (views.py): resolve the item,
return `item.changes.all()` — its change-log rows, newest first per the
model ordering (`db.logs` is kept newest-first). -/
def history_view (db : DB) (requester : User) (pk : Nat) :
    Except HttpError (List InventoryChangeLog) :=
  match get_object db requester pk with
  | Except.error e => Except.error e
  | Except.ok it => Except.ok (db.logs.filter (fun l => l.item == it.id))

/-- Embeds DRF `retrieve`: the resolved object itself. -/
def retrieve_view (db : DB) (requester : User) (pk : Nat) :
    Except HttpError InventoryItem :=
  get_object db requester pk

/-- Modelled from the spec: the DRF pagination configuration lives in the
project settings module, which is not among the provided sources.  Per the
spec, list responses are "paginated envelopes: \x7bcount, results: [...]\x7d
with page size 10" — a fixed page size of 10 with a total count. -/
def PAGE_SIZE : Nat := 10

/-- The list endpoint with no filter parameters other than an optional
`low_stock` (category/price/search filters absent, default ordering):
paginate the scoped queryset and return the envelope
(`count`, current page's `results`).  Pages are numbered from 1. -/
def list_view (db : DB) (requester : User) (low_stock : Option String)
    (page : Nat) : Nat × List InventoryItem :=
  let qs := get_queryset db requester low_stock
  (qs.length, (qs.drop ((page - 1) * PAGE_SIZE)).take PAGE_SIZE)

/-- Body of a POST to `/users/` (registration). -/
structure RegisterRequest where
  username : String
  email : String
  password : String
  first_name : String
  last_name : String
  deriving Repr, DecidableEq

/-- Case-insensitive string equality, as Django's `iexact` lookup
compares: equality after lowercasing every character. -/
def lowerEq (a b : String) : Bool :=
  a.toList.map Char.toLower == b.toList.map Char.toLower

/-- `UserSerializer` validation (serializers.py): `email` carries a
`UniqueValidator` over all users with `lookup='iexact'` (case-insensitive
equality), `username` carries the uniqueness validator `ModelSerializer`
derives from `AbstractUser.username`'s unique constraint, and `password`
has `min_length=8`. -/
def registerValid (db : DB) (req : RegisterRequest) : Bool :=
  ¬ db.users.any (fun u => lowerEq u.email req.email) &&
  ¬ db.users.any (fun u => u.username == req.username) &&
  8 ≤ req.password.length

/-- `UserSerializer.Meta.fields` (serializers.py). -/
def userSerializerFields : List String :=
  ["id", "username", "email", "password", "first_name", "last_name"]

/-- The serializer's write-only fields: `password` is declared
`write_only=True`, so `to_representation` skips it. -/
def userWriteOnlyFields : List String := ["password"]

/-- One field of a user's serialized representation, as a string. -/
def userFieldVal (u : User) : String → String
  | "id" => toString u.id
  | "username" => u.username
  | "email" => u.email
  | "first_name" => u.first_name
  | "last_name" => u.last_name
  | _ => ""

/-- `UserSerializer` output: every declared field except the write-only
ones, paired with its value.  The password (even hashed) never appears. -/
def userRepr (u : User) : List (String × String) :=
  (userSerializerFields.filter
      (fun f => ¬ userWriteOnlyFields.contains f)).map
    (fun f => (f, userFieldVal u f))

/-- Embeds `UserViewSet.create` with `UserSerializer.create`
(serializers.py): validate (unique email case-insensitively, unique
username, password length), hash the password, store the user, and
respond with the serialized representation. -/
def register (db : DB) (req : RegisterRequest) (newId : Nat)
    (hash : String → String) :
    Except HttpError (DB × List (String × String)) :=
  if registerValid db req then
    let u : User :=
      { id := newId
        username := req.username
        email := req.email
        first_name := req.first_name
        last_name := req.last_name
        password_hash := hash req.password
        is_staff := false }
    Except.ok ({ db with users := db.users ++ [u] }, userRepr u)
  else Except.error HttpError.badRequest

/-! ### Concrete fixtures used by the witness theorems -/

/-- A non-staff user. -/
def alice : User :=
  { id := 1, username := "alice", email := "alice@example.com"
    first_name := "A", last_name := "L", password_hash := "h1"
    is_staff := false }

/-- A second non-staff user. -/
def bob : User :=
  { id := 2, username := "bob", email := "bob@example.com"
    first_name := "B", last_name := "O", password_hash := "h2"
    is_staff := false }

/-- A staff user. -/
def carol : User :=
  { id := 3, username := "carol", email := "carol@example.com"
    first_name := "C", last_name := "S", password_hash := "h3"
    is_staff := true }

/-- A concrete inventory item. -/
def mkItem (k owner q : Nat) : InventoryItem :=
  { id := k, user := owner, name := "widget", description := ""
    quantity := q, price := 250, category := "tools"
    date_added := 0, last_updated := 0 }

/-- A concrete store: Alice owns item 1 (quantity 5), Bob owns item 2
(quantity 3). -/
def db0 : DB :=
  { users := [alice, bob, carol]
    items := [mkItem 1 1 5, mkItem 2 2 3]
    logs := [] }

/-! ### Claim theorems -/

/-- C1: for every item with quantity `q` and every parsed integer delta
`d`, `adjust_quantity` sets the quantity to `max 0 (q + d)` and creates
exactly one new change-log entry with `quantity_before = q`,
`quantity_after = max 0 (q + d)` and `delta = max 0 (q + d) - q`; when
`q + d < 0` the new quantity is `0` and the logged delta is `0 - q`, and
when `0 ≤ d` the new quantity is `q + d` and the logged delta is `d`. -/
theorem adjust_quantity_clamps_and_logs (db : DB) (u : User) (pk : Nat)
    (req : AdjustRequest) (now : Nat) (item : InventoryItem) (d : Int)
    (hobj : get_object db u pk = Except.ok item)
    (hd : pyInt req.delta = some d) :
    ((adjust_quantity db u pk req now).2 =
        AdjustResp.ok item.id (max 0 ((item.quantity : Int) + d)).toNat) ∧
    (∃ log, (adjust_quantity db u pk req now).1.logs = log :: db.logs ∧
      log.quantity_before = item.quantity ∧
      log.quantity_after = (max 0 ((item.quantity : Int) + d)).toNat ∧
      log.delta = max 0 ((item.quantity : Int) + d) - (item.quantity : Int)) ∧
    ((item.quantity : Int) + d < 0 →
      (adjust_quantity db u pk req now).2 = AdjustResp.ok item.id 0 ∧
      (∃ log, (adjust_quantity db u pk req now).1.logs = log :: db.logs ∧
        log.delta = 0 - (item.quantity : Int))) ∧
    (0 ≤ d →
      (adjust_quantity db u pk req now).2 =
        AdjustResp.ok item.id (item.quantity + d.toNat) ∧
      (∃ log, (adjust_quantity db u pk req now).1.logs = log :: db.logs ∧
        log.delta = d)) := by
  have hres : (adjust_quantity db u pk req now).1.logs =
      { id := db.logs.length, item := item.id, performed_by := some u.id
        quantity_before := item.quantity
        quantity_after := (max 0 ((item.quantity : Int) + d)).toNat
        delta := (((max 0 ((item.quantity : Int) + d)).toNat : Nat) : Int) -
          (item.quantity : Int)
        reason := req.reason, created_at := now } :: db.logs := by
    simp [adjust_quantity, hobj, hd]
  have hresp : (adjust_quantity db u pk req now).2 =
      AdjustResp.ok item.id (max 0 ((item.quantity : Int) + d)).toNat := by
    simp [adjust_quantity, hobj, hd]
  refine ⟨hresp, ?_, ?_, ?_⟩
  · exact ⟨_, hres, rfl, rfl, by simp only; omega⟩
  · intro hneg
    have h0 : (max 0 ((item.quantity : Int) + d)).toNat = 0 := by omega
    refine ⟨by rw [hresp, h0], _, hres, by simp only; omega⟩
  · intro hpos
    have h0 : (max 0 ((item.quantity : Int) + d)).toNat =
        item.quantity + d.toNat := by omega
    refine ⟨by rw [hresp, h0], _, hres, by simp only; omega⟩

/-- C1 witness: adjusting Alice's item 1 (quantity 5) by `-9` clamps to 0
and logs delta `-5`. -/
theorem adjust_quantity_clamps_and_logs_witness :
    get_object db0 alice 1 = Except.ok (mkItem 1 1 5) ∧
    pyInt (PyVal.str "-9") = some (-9) ∧
    ((adjust_quantity db0 alice 1 ⟨PyVal.str "-9", "damaged"⟩ 7).2 =
        AdjustResp.ok 1 ((max 0 ((5 : Int) + (-9))).toNat)) := by
  refine ⟨rfl, by decide, ?_⟩
  exact (adjust_quantity_clamps_and_logs db0 alice 1
    ⟨PyVal.str "-9", "damaged"⟩ 7 (mkItem 1 1 5) (-9)
    rfl (by decide)).1

/-- C4: when `delta` is missing (`None`) or cannot be parsed as an
integer, `adjust_quantity` answers with a 400 `ValidationError` response
and leaves the store — the item's quantity and the change log — exactly
as it was. -/
theorem adjust_quantity_bad_delta (db : DB) (u : User) (pk : Nat)
    (req : AdjustRequest) (now : Nat) (item : InventoryItem)
    (hobj : get_object db u pk = Except.ok item)
    (hd : pyInt req.delta = Option.none) :
    adjust_quantity db u pk req now = (db, AdjustResp.err HttpError.badRequest) := by
  simp [adjust_quantity, hobj, hd]

/-- C4 witness: adjusting Alice's item 1 with `delta = "oops"` is refused
with 400 and the store is untouched. -/
theorem adjust_quantity_bad_delta_witness :
    adjust_quantity db0 alice 1 ⟨PyVal.str "oops", ""⟩ 7 =
      (db0, AdjustResp.err HttpError.badRequest) :=
  adjust_quantity_bad_delta db0 alice 1 ⟨PyVal.str "oops", ""⟩ 7
    (mkItem 1 1 5) rfl (by decide)

/-- C9: a successful `adjust_quantity` leaves the user table unchanged and
every other item row unchanged; the target row keeps its `name`,
`description`, `price`, `category`, `user` and `date_added`, changing only
`quantity` and `last_updated`. -/
theorem adjust_quantity_frame (db : DB) (u : User) (pk : Nat)
    (req : AdjustRequest) (now : Nat) (item : InventoryItem) (d : Int)
    (hobj : get_object db u pk = Except.ok item)
    (hd : pyInt req.delta = some d) :
    ((adjust_quantity db u pk req now).1.users = db.users) ∧
    ((adjust_quantity db u pk req now).1.items.length = db.items.length) ∧
    (∀ j ∈ db.items, j.id ≠ item.id →
      j ∈ (adjust_quantity db u pk req now).1.items) ∧
    (∀ j ∈ (adjust_quantity db u pk req now).1.items,
      j ∈ db.items ∨
      (j.id = item.id ∧ j.name = item.name ∧
       j.description = item.description ∧ j.price = item.price ∧
       j.category = item.category ∧ j.user = item.user ∧
       j.date_added = item.date_added ∧ j.last_updated = now)) := by
  have hitems : (adjust_quantity db u pk req now).1.items =
      saveItem db.items
        { item with
          quantity := (max 0 ((item.quantity : Int) + d)).toNat
          last_updated := now } := by
    simp [adjust_quantity, hobj, hd]
  have husers : (adjust_quantity db u pk req now).1.users = db.users := by
    simp [adjust_quantity, hobj, hd]
  refine ⟨husers, ?_, ?_, ?_⟩
  · rw [hitems]; simp [saveItem]
  · intro j hj hne
    rw [hitems]
    simp only [saveItem, List.mem_map]
    refine ⟨j, hj, ?_⟩
    simp [hne]
  · intro j hj
    rw [hitems] at hj
    simp only [saveItem, List.mem_map] at hj
    obtain ⟨j0, hj0, hj0e⟩ := hj
    by_cases hc : (j0.id == item.id) = true
    · right
      rw [if_pos hc] at hj0e
      subst hj0e
      exact ⟨rfl, rfl, rfl, rfl, rfl, rfl, rfl, rfl⟩
    · left
      rw [if_neg hc] at hj0e
      subst hj0e
      exact hj0

/-- C9 witness: adjusting Alice's item 1 leaves the users and Bob's item 2
in place. -/
theorem adjust_quantity_frame_witness :
    ((adjust_quantity db0 alice 1 ⟨PyVal.int 4, ""⟩ 9).1.users = db0.users) ∧
    (mkItem 2 2 3) ∈ (adjust_quantity db0 alice 1 ⟨PyVal.int 4, ""⟩ 9).1.items := by
  have h := adjust_quantity_frame db0 alice 1 ⟨PyVal.int 4, ""⟩ 9
    (mkItem 1 1 5) 4 rfl rfl
  exact ⟨h.1, h.2.2.1 (mkItem 2 2 3) (by decide) (by decide)⟩

/-- Membership in the unfiltered scoped queryset: an item is visible iff
it is stored and the caller is staff or owns it. -/
theorem mem_get_queryset_none (db : DB) (u : User) (i : InventoryItem) :
    i ∈ get_queryset db u Option.none ↔
      i ∈ db.items ∧ (u.is_staff = true ∨ i.user = u.id) := by
  unfold get_queryset
  by_cases hs : u.is_staff = true
  · simp [hs]
  · simp only [Bool.not_eq_true] at hs
    simp [hs, List.mem_filter]

/-- C2: the queryset of a non-staff caller contains exactly the items
that caller owns, a staff caller's queryset is every item, a resolved
detail object is always stored, has the requested pk and is visible to
the caller, looking up another user's item as non-staff fails with
`NotFound`, that `NotFound` propagates to the retrieve, history, update,
delete and adjust operations, which then leave the store unchanged, and a
staff caller resolves any stored item — whoever owns it — so that
retrieve, history, adjust, update and delete all succeed on it. -/
theorem ownership_scoping (db : DB) (u : User) (pk : Nat)
    (areq : AdjustRequest) (ureq : UpdateRequest) (now : Nat) :
    (∀ i ∈ get_queryset db u Option.none,
      i ∈ db.items ∧ (u.is_staff = true ∨ i.user = u.id)) ∧
    (u.is_staff = true → get_queryset db u Option.none = db.items) ∧
    (∀ i, get_object db u pk = Except.ok i →
      i ∈ db.items ∧ i.id = pk ∧ (u.is_staff = true ∨ i.user = u.id)) ∧
    (u.is_staff = false →
      (∀ i ∈ db.items, i.id = pk → i.user ≠ u.id) →
      get_object db u pk = Except.error HttpError.notFound) ∧
    (get_object db u pk = Except.error HttpError.notFound →
      retrieve_view db u pk = Except.error HttpError.notFound ∧
      history_view db u pk = Except.error HttpError.notFound ∧
      update_view db u pk ureq now = (db, UpdateResp.err HttpError.notFound) ∧
      destroy_view db u pk = (db, some HttpError.notFound) ∧
      adjust_quantity db u pk areq now = (db, AdjustResp.err HttpError.notFound)) ∧
    (u.is_staff = true →
      ∀ i, db.items.find? (fun j => j.id == pk) = some i →
        get_object db u pk = Except.ok i ∧
        retrieve_view db u pk = Except.ok i ∧
        history_view db u pk =
          Except.ok (db.logs.filter (fun l => l.item == i.id)) ∧
        (∀ d, pyInt areq.delta = some d →
          (adjust_quantity db u pk areq now).2 =
            AdjustResp.ok i.id (max 0 ((i.quantity : Int) + d)).toNat) ∧
        (updateValid ureq = true →
          (update_view db u pk ureq now).2 =
            UpdateResp.ok (applyUpdate i ureq now)) ∧
        (destroy_view db u pk).2 = Option.none) := by
  refine ⟨?_, ?_, ?_, ?_, ?_, ?_⟩
  · intro i hi
    exact (mem_get_queryset_none db u i).1 hi
  · intro hs
    unfold get_queryset
    simp [hs]
  · intro i hok
    unfold get_object at hok
    cases hfind : (get_queryset db u Option.none).find? (fun j => j.id == pk) with
    | none => rw [hfind] at hok; exact absurd hok (by simp)
    | some j =>
      rw [hfind] at hok
      have hmem := List.mem_of_find?_eq_some hfind
      have hid := List.find?_some hfind
      by_cases hperm : isOwnerPermits u j = true
      · simp only [hperm, if_true] at hok
        injection hok with hji
        subst hji
        have hvis := (mem_get_queryset_none db u j).1 hmem
        exact ⟨hvis.1, by simp at hid; exact hid, hvis.2⟩
      · simp [hperm] at hok
  · intro hs hother
    unfold get_object
    have hnone : (get_queryset db u Option.none).find? (fun j => j.id == pk) =
        Option.none := by
      rw [List.find?_eq_none]
      intro j hj
      have hvis := (mem_get_queryset_none db u j).1 hj
      have hown : j.user = u.id := by
        rcases hvis.2 with h | h
        · rw [hs] at h; exact absurd h (by simp)
        · exact h
      intro hbeq
      exact hother j hvis.1 (by simpa using hbeq) hown
    rw [hnone]
  · intro hnf
    exact ⟨by simp [retrieve_view, hnf],
           by simp [history_view, hnf],
           by simp [update_view, hnf],
           by simp [destroy_view, hnf],
           by simp [adjust_quantity, hnf]⟩
  · intro hs i hfind
    have hqs : get_queryset db u Option.none = db.items := by
      unfold get_queryset
      simp [hs]
    have hperm : isOwnerPermits u i = true := by
      simp [isOwnerPermits, hs]
    have hobj : get_object db u pk = Except.ok i := by
      unfold get_object
      rw [hqs, hfind]
      simp only [hperm, if_true]
    refine ⟨hobj, by simp [retrieve_view, hobj], by simp [history_view, hobj],
            ?_, ?_, by simp [destroy_view, hobj]⟩
    · intro d hd
      simp [adjust_quantity, hobj, hd]
    · intro hval
      simp only [update_view, hobj, hval, if_true]
      split <;> rfl

/-- C2 witness: non-staff Alice cannot see or adjust Bob's item 2 — the
lookup and the adjust action answer `NotFound` and change nothing — while
staff Carol's queryset is the whole item table and Carol resolves and
adjusts Bob's item 2 successfully. -/
theorem ownership_scoping_witness :
    get_object db0 alice 2 = Except.error HttpError.notFound ∧
    adjust_quantity db0 alice 2 ⟨PyVal.int 1, ""⟩ 7 =
      (db0, AdjustResp.err HttpError.notFound) ∧
    get_queryset db0 carol Option.none = db0.items ∧
    get_object db0 carol 2 = Except.ok (mkItem 2 2 3) ∧
    (adjust_quantity db0 carol 2 ⟨PyVal.int 1, ""⟩ 7).2 =
      AdjustResp.ok 2 ((max 0 (((3 : Nat) : Int) + 1)).toNat) := by
  have h := ownership_scoping db0 alice 2 ⟨PyVal.int 1, ""⟩
    ⟨Option.none, Option.none, Option.none, Option.none, Option.none, ""⟩ 7
  have hc := ownership_scoping db0 carol 2 ⟨PyVal.int 1, ""⟩
    ⟨Option.none, Option.none, Option.none, Option.none, Option.none, ""⟩ 7
  have hnf := h.2.2.2.1 (by decide) (by decide)
  have hstaff := hc.2.2.2.2.2 (by decide) (mkItem 2 2 3) (by decide)
  exact ⟨hnf, (h.2.2.2.2.1 hnf).2.2.2.2, hc.2.1 (by decide), hstaff.1,
    hstaff.2.2.2.1 1 rfl⟩

/-- C3: the generic update creates one change-log row exactly when the
saved quantity differs from the stored one — zero rows when the request
omits `quantity` or repeats the current value — while `adjust_quantity`
creates one row on every successful call, including a zero delta. -/
theorem change_log_emission (db : DB) (u : User) (pk : Nat)
    (ureq : UpdateRequest) (areq : AdjustRequest) (now : Nat)
    (item : InventoryItem) (d : Int)
    (hobj : get_object db u pk = Except.ok item)
    (hval : updateValid ureq = true)
    (hd : pyInt areq.delta = some d) :
    ((update_view db u pk ureq now).1.logs.length =
      db.logs.length +
        (if ureq.quantity.getD item.quantity = item.quantity then 0 else 1)) ∧
    (ureq.quantity = Option.none →
      (update_view db u pk ureq now).1.logs = db.logs) ∧
    ((adjust_quantity db u pk areq now).1.logs.length = db.logs.length + 1) := by
  refine ⟨?_, ?_, by simp [adjust_quantity, hobj, hd]⟩
  · by_cases hq : ureq.quantity.getD item.quantity = item.quantity
    · have : ¬ item.quantity ≠ (applyUpdate item ureq now).quantity := by
        simp [applyUpdate, hq]
      simp [update_view, hobj, hval, applyUpdate, this, hq]
    · have hne : ¬ item.quantity = ureq.quantity.getD item.quantity :=
        fun h => hq h.symm
      simp [update_view, hobj, hval, applyUpdate, hq, hne]
  · intro hnone
    have : ¬ item.quantity ≠ (applyUpdate item ureq now).quantity := by
      simp [applyUpdate, hnone]
    simp [update_view, hobj, hval, this]

/-- C3 witness: renaming Alice's item 1 logs nothing; adjusting it by 0
still logs one row. -/
theorem change_log_emission_witness :
    ((update_view db0 alice 1
        ⟨some "renamed", Option.none, Option.none, Option.none, Option.none, ""⟩
        7).1.logs = db0.logs) ∧
    ((adjust_quantity db0 alice 1 ⟨PyVal.int 0, ""⟩ 7).1.logs.length =
      db0.logs.length + 1) := by
  have h := change_log_emission db0 alice 1
    ⟨some "renamed", Option.none, Option.none, Option.none, Option.none, ""⟩
    ⟨PyVal.int 0, ""⟩ 7 (mkItem 1 1 5) 0 rfl (by decide) rfl
  exact ⟨h.2.1 rfl, h.2.2⟩

/-- C5: the stored owner of a created item is the authenticated caller,
and a client-supplied `user` value in the request body makes no difference
to the outcome. -/
theorem create_owner_forced (db : DB) (u : User) (req : CreateRequest)
    (newId now : Nat) :
    (∀ item, (create_view db u req newId now).2 = CreateResp.ok item →
      item.user = u.id) ∧
    (∀ v, create_view db u { req with user := v } newId now =
      create_view db u req newId now) := by
  constructor
  · intro item h
    unfold create_view at h
    by_cases hp : 0 < req.price
    · simp only [hp, if_true] at h
      injection h with h2
      rw [← h2]
    · simp [hp] at h
  · intro v
    unfold create_view
    rfl

/-- C5 witness: Alice creating an item claiming Bob as owner still stores
Alice as owner. -/
theorem create_owner_forced_witness :
    (create_view db0 alice ⟨some 2, "x", "", 1, 100, ""⟩ 3 7).2 =
      CreateResp.ok
        { id := 3, user := 1, name := "x", description := "", quantity := 1
          price := 100, category := "", date_added := 7, last_updated := 7 } ∧
    ((create_view db0 alice ⟨some 2, "x", "", 1, 100, ""⟩ 3 7).2 =
        CreateResp.ok
          { id := 3, user := 1, name := "x", description := "", quantity := 1
            price := 100, category := "", date_added := 7, last_updated := 7 } →
      ({ id := 3, user := 1, name := "x", description := "", quantity := 1
         price := 100, category := "", date_added := 7,
         last_updated := 7 } : InventoryItem).user = alice.id) := by
  exact ⟨rfl, (create_owner_forced db0 alice ⟨some 2, "x", "", 1, 100, ""⟩ 3 7).1 _⟩

/-- C6: the list response is the envelope (count, results) with page size
10: a caller with 12 visible items gets `count = 12` and a first page of
exactly 10 results. -/
theorem list_pagination (db : DB) (u : User)
    (h : (get_queryset db u Option.none).length = 12) :
    (list_view db u Option.none 1).1 = 12 ∧
    (list_view db u Option.none 1).2.length = 10 := by
  unfold list_view PAGE_SIZE
  refine ⟨h, ?_⟩
  simp only [List.length_take, List.length_drop, h]
  rfl

/-- A staff caller's store with twelve items. -/
def db12 : DB :=
  { users := [carol]
    items := (List.range 12).map (fun k => mkItem k 3 k)
    logs := [] }

/-- C6 witness: Carol sees twelve items; the first page holds ten. -/
theorem list_pagination_witness :
    (list_view db12 carol Option.none 1).1 = 12 ∧
    (list_view db12 carol Option.none 1).2.length = 10 :=
  list_pagination db12 carol (by decide)

/-- A parseable `low_stock` parameter filters the scoped queryset by
`quantity < threshold`. -/
theorem get_queryset_parse_some (db : DB) (u : User) (s : String) (t : Int)
    (ht : parseIntString s = some t) :
    get_queryset db u (some s) =
      (get_queryset db u Option.none).filter
        (fun i => decide ((i.quantity : Int) < t)) := by
  unfold get_queryset
  simp only [ht]

/-- A malformed `low_stock` parameter is ignored. -/
theorem get_queryset_parse_none (db : DB) (u : User) (s : String)
    (hnone : parseIntString s = Option.none) :
    get_queryset db u (some s) = get_queryset db u Option.none := by
  unfold get_queryset
  simp only [hnone]

/-- C7: when the `low_stock` parameter parses as an integer `t`, the list
queryset is exactly the caller's visible items with `quantity < t`; when
it does not parse, the filter is silently skipped and the queryset is as
if the parameter were absent. -/
theorem low_stock_filtering (db : DB) (u : User) (s : String) :
    (∀ t, parseIntString s = some t →
      ∀ i, i ∈ get_queryset db u (some s) ↔
        (i ∈ get_queryset db u Option.none ∧ (i.quantity : Int) < t)) ∧
    (parseIntString s = Option.none →
      get_queryset db u (some s) = get_queryset db u Option.none) := by
  constructor
  · intro t ht i
    rw [get_queryset_parse_some db u s t ht]
    simp [List.mem_filter]
  · intro hnone
    exact get_queryset_parse_none db u s hnone

/-- C7 witness: with `low_stock=5`, Carol sees exactly the items with
quantity below 5; with `low_stock=abc`, she sees everything. -/
theorem low_stock_filtering_witness :
    (parseIntString "5" = some 5 ∧
      ((mkItem 2 2 3) ∈ get_queryset db0 carol (some "5") ↔
        ((mkItem 2 2 3) ∈ get_queryset db0 carol Option.none ∧
          ((3 : Nat) : Int) < 5))) ∧
    (parseIntString "abc" = Option.none ∧
      get_queryset db0 carol (some "abc") = get_queryset db0 carol Option.none) := by
  constructor
  · exact ⟨by decide,
      (low_stock_filtering db0 carol "5").1 5 (by decide) (mkItem 2 2 3)⟩
  · exact ⟨by decide, (low_stock_filtering db0 carol "abc").2 (by decide)⟩

/-- C10: a `low_stock` threshold `t ≤ 0` yields an empty result: every
stored quantity is a natural number, so none is strictly below a
non-positive threshold. -/
theorem low_stock_nonpositive_empty (db : DB) (u : User) (s : String)
    (t : Int) (hp : parseIntString s = some t) (ht : t ≤ 0) :
    get_queryset db u (some s) = [] := by
  rw [get_queryset_parse_some db u s t hp]
  rw [List.filter_eq_nil_iff]
  intro i _
  simp only [decide_eq_true_eq, not_lt]
  exact le_trans ht (Int.ofNat_nonneg i.quantity)

/-- C10 witness: `low_stock=0` empties Carol's list. -/
theorem low_stock_nonpositive_empty_witness :
    parseIntString "0" = some 0 ∧ (0 : Int) ≤ 0 ∧
    get_queryset db0 carol (some "0") = [] :=
  ⟨by decide, by decide,
    low_stock_nonpositive_empty db0 carol "0" 0 (by decide) (by decide)⟩

/-- The serialized user representation, spelled out: the `password` field
is filtered away before the map. -/
theorem userRepr_eq (u : User) :
    userRepr u = [("id", toString u.id), ("username", u.username),
      ("email", u.email), ("first_name", u.first_name),
      ("last_name", u.last_name)] := rfl

/-- C8: registration is refused with `ValidationError` whenever some
existing account has a case-insensitively equal email, and a successful
registration response carries no `password` field. -/
theorem registration_email_and_password (db : DB) (req : RegisterRequest)
    (newId : Nat) (hash : String → String) :
    ((∃ u ∈ db.users, lowerEq u.email req.email = true) →
      register db req newId hash = Except.error HttpError.badRequest) ∧
    (∀ db2 body, register db req newId hash = Except.ok (db2, body) →
      ∀ p ∈ body, p.1 ≠ "password") := by
  constructor
  · rintro ⟨u, hu, he⟩
    have hinvalid : ¬ registerValid db req = true := by
      unfold registerValid
      have hany : db.users.any (fun v => lowerEq v.email req.email) = true := by
        rw [List.any_eq_true]
        exact ⟨u, hu, he⟩
      simp [hany]
    simp [register, hinvalid]
  · intro db2 body hok p hp
    unfold register at hok
    by_cases hv : registerValid db req = true
    · simp only [hv, if_true] at hok
      injection hok with h2
      have hbody : body = userRepr
          { id := newId, username := req.username, email := req.email
            first_name := req.first_name, last_name := req.last_name
            password_hash := hash req.password, is_staff := false } :=
        (congrArg Prod.snd h2).symm
      rw [hbody, userRepr_eq] at hp
      simp only [List.mem_cons, List.not_mem_nil, or_false] at hp
      rcases hp with h | h | h | h | h <;> (rw [h]; simp)
    · simp [hv] at hok

/-- The store after Dave registers. -/
def daveUser : User :=
  { id := 9, username := "dave", email := "dave@example.com"
    first_name := "", last_name := "", password_hash := "longpass"
    is_staff := false }

/-- C8 witness: re-registering Alice's email in upper case is refused, and
Dave's successful registration response has no `password` key. -/
theorem registration_email_and_password_witness :
    register db0 ⟨"alice2", "ALICE@EXAMPLE.COM", "longpass", "", ""⟩ 9
        (fun p => p) = Except.error HttpError.badRequest ∧
    (∀ p ∈ userRepr daveUser, p.1 ≠ "password") := by
  constructor
  · exact (registration_email_and_password db0
      ⟨"alice2", "ALICE@EXAMPLE.COM", "longpass", "", ""⟩ 9 (fun p => p)).1
      ⟨alice, by decide, by decide⟩
  · exact (registration_email_and_password db0
      ⟨"dave", "dave@example.com", "longpass", "", ""⟩ 9 (fun p => p)).2
      { db0 with users := db0.users ++ [daveUser] } (userRepr daveUser) rfl

end Inventory
